import Mathlib

/-!
Shallow embedding of the ArcWelderLib entry points:

* `ArcWelderConsole/ArcWelderConsole.cpp` (`main`),
* `ArcWelderInverseProcessor/ArcWelderInverseProcessor.cpp`
  (`run_arc_straightener`, `get_firmware_type_from_string`,
  `is_firmware_version_valid_for_type`, `get_available_arguments_string`),
* `ArcWelderInverseProcessor/firmware.h` (`firmware_arguments` and its
  accessors).

C++ `double` values are modelled as `ℚ`: none of the verified claims
depends on binary floating-point rounding, only on sign tests and
assignments.  C++ `std::string` is `String`, `std::vector` is `List`,
and a function that can throw `TCLAP::ArgException` is embedded with
`Except ArgException`.
-/

/-- The closed set of supported firmwares.  Modelled from the spec:
`firmware_types.h` is not under src/; spec §9 fixes the closed set
{Marlin1, Marlin2, Prusa, Repetier, Smoothieware}, and the constructor
order follows the switch statements in `ArcWelderInverseProcessor.cpp`. -/
inductive firmware_types
  | MARLIN_1
  | MARLIN_2
  | REPETIER
  | PRUSA
  | SMOOTHIEWARE
deriving DecidableEq

/-- Modelled from the spec: the display names of the five supported
firmware types, in enum order (`firmware_type_names` in
`firmware_types.h`, which is not under src/). -/
def firmware_type_names : List String :=
  ["MARLIN_1", "MARLIN_2", "REPETIER", "PRUSA", "SMOOTHIEWARE"]

/-- `NUM_FIRMWARE_TYPES` (five supported firmwares). -/
def NUM_FIRMWARE_TYPES : Nat := 5

/-- `#define DEFAULT_FIRMWARE_TYPE firmware_types::MARLIN_2` (firmware.h). -/
def DEFAULT_FIRMWARE_TYPE : firmware_types := firmware_types.MARLIN_2

/-- `#define LATEST_FIRMWARE_VERSION_NAME "LATEST_RELEASE"` (firmware.h). -/
def LATEST_FIRMWARE_VERSION_NAME : String := "LATEST_RELEASE"

/-- `#define DEFAULT_MM_PER_ARC_SEGMENT 1.0` (firmware.h). -/
def DEFAULT_MM_PER_ARC_SEGMENT : ℚ := 1

/-- `#define DEFAULT_ARC_SEGMENTS_PER_R 0` (firmware.h). -/
def DEFAULT_ARC_SEGMENTS_PER_R : ℚ := 0

/-- `#define DEFAULT_MIN_MM_PER_ARC_SEGMENT 0` (firmware.h). -/
def DEFAULT_MIN_MM_PER_ARC_SEGMENT : ℚ := 0

/-- `#define DEFAULT_MIN_ARC_SEGMENTS 24` (firmware.h). -/
def DEFAULT_MIN_ARC_SEGMENTS : Int := 24

/-- `#define DEFAULT_MIN_CIRCLE_SEGMENTS 72` (firmware.h). -/
def DEFAULT_MIN_CIRCLE_SEGMENTS : Int := 72

/-- `#define DEFAULT_ARC_SEGMENTS_PER_SEC 0` (firmware.h). -/
def DEFAULT_ARC_SEGMENTS_PER_SEC : ℚ := 0

/-- `#define DEFAULT_N_ARC_CORRECTIONS 24` (firmware.h). -/
def DEFAULT_N_ARC_CORRECTIONS : Int := 24

/-- `#define DEFAULT_G90_G91_INFLUENCES_EXTRUDER false` (firmware.h). -/
def DEFAULT_G90_G91_INFLUENCES_EXTRUDER : Bool := false

/-- `#define DEFAULT_MM_MAX_ARC_ERROR 0.01` (firmware.h). -/
def DEFAULT_MM_MAX_ARC_ERROR : ℚ := mkRat 1 100

/-- The `all_arguments_` list built by the `firmware_arguments`
constructor (firmware.h lines 100-112): the eleven known argument
names, including the three aliases, in declaration order.  Every
`firmware_arguments` instance carries exactly this list, so it is a
top-level constant here. -/
def all_arguments : List String :=
  ["mm_per_arc_segment",
   "arc_segments_per_r",
   "min_mm_per_arc_segment",
   "min_arc_segments",
   "arc_segments_per_sec",
   "n_arc_correction",
   "g90_g91_influences_extruder",
   "mm_max_arc_error",
   "min_circle_segments",
   "min_arc_segment_mm",
   "max_arc_segment_mm"]

/-- `struct firmware_arguments` (firmware.h).  `used_arguments` is the
private `used_arguments_` vector (set with `set_used_arguments` by the
per-firmware defaults tables, which live outside src/). -/
structure firmware_arguments where
  mm_per_arc_segment : ℚ
  arc_segments_per_r : ℚ
  min_mm_per_arc_segment : ℚ
  arc_segments_per_sec : ℚ
  mm_max_arc_error : ℚ
  min_arc_segments : Int
  n_arc_correction : Int
  g90_g91_influences_extruder : Bool
  firmware_type : firmware_types
  version : String
  latest_release_version : String
  used_arguments : List String
deriving DecidableEq

/-- The `firmware_arguments()` constructor (firmware.h lines 87-113):
every field is set to its `DEFAULT_*` macro and `used_arguments_`
starts empty. -/
def default_firmware_arguments : firmware_arguments :=
  { mm_per_arc_segment := DEFAULT_MM_PER_ARC_SEGMENT
    arc_segments_per_r := DEFAULT_ARC_SEGMENTS_PER_R
    min_mm_per_arc_segment := DEFAULT_MIN_MM_PER_ARC_SEGMENT
    arc_segments_per_sec := DEFAULT_ARC_SEGMENTS_PER_SEC
    mm_max_arc_error := DEFAULT_MM_MAX_ARC_ERROR
    min_arc_segments := DEFAULT_MIN_ARC_SEGMENTS
    n_arc_correction := DEFAULT_N_ARC_CORRECTIONS
    g90_g91_influences_extruder := DEFAULT_G90_G91_INFLUENCES_EXTRUDER
    firmware_type := DEFAULT_FIRMWARE_TYPE
    version := LATEST_FIRMWARE_VERSION_NAME
    latest_release_version := LATEST_FIRMWARE_VERSION_NAME
    used_arguments := [] }

/-- `firmware_arguments::is_argument_used` (firmware.h lines 303-306):
`std::find(used_arguments_.begin(), used_arguments_.end(), argument_name)
 != used_arguments_.end()`. -/
def firmware_arguments.is_argument_used (fa : firmware_arguments)
    (argument_name : String) : Bool :=
  fa.used_arguments.contains argument_name

/-- `firmware_arguments::get_available_arguments` (firmware.h lines
226-229): returns `used_arguments_`. -/
def firmware_arguments.get_available_arguments (fa : firmware_arguments) :
    List String :=
  fa.used_arguments

/-- `firmware_arguments::get_unused_arguments` (firmware.h lines
198-209): iterates over `all_arguments_`, pushing back every name for
which `is_argument_used` is false. -/
def firmware_arguments.get_unused_arguments (fa : firmware_arguments) :
    List String :=
  all_arguments.foldl
    (fun unused_arguments it =>
      if !(fa.is_argument_used it) then unused_arguments ++ [it]
      else unused_arguments)
    []

/-- `firmware_arguments::get_min_circle_segments` (firmware.h):
alias reading `min_arc_segments`. -/
def firmware_arguments.get_min_circle_segments (fa : firmware_arguments) :
    Int :=
  fa.min_arc_segments

/-- `firmware_arguments::set_min_circle_segments` (firmware.h):
alias writing `min_arc_segments`. -/
def firmware_arguments.set_min_circle_segments (fa : firmware_arguments)
    (segments : Int) : firmware_arguments :=
  { fa with min_arc_segments := segments }

/-- `firmware_arguments::get_min_arc_segment_mm` (firmware.h):
alias reading `min_mm_per_arc_segment`. -/
def firmware_arguments.get_min_arc_segment_mm (fa : firmware_arguments) :
    ℚ :=
  fa.min_mm_per_arc_segment

/-- `firmware_arguments::set_min_arc_segment_mm` (firmware.h):
alias writing `min_mm_per_arc_segment`. -/
def firmware_arguments.set_min_arc_segment_mm (fa : firmware_arguments)
    (mm : ℚ) : firmware_arguments :=
  { fa with min_mm_per_arc_segment := mm }

/-- `firmware_arguments::get_max_arc_segment_mm` (firmware.h):
alias reading `mm_per_arc_segment`. -/
def firmware_arguments.get_max_arc_segment_mm (fa : firmware_arguments) :
    ℚ :=
  fa.mm_per_arc_segment

/-- `firmware_arguments::set_max_arc_segment_mm` (firmware.h):
alias writing `mm_per_arc_segment`. -/
def firmware_arguments.set_max_arc_segment_mm (fa : firmware_arguments)
    (mm : ℚ) : firmware_arguments :=
  { fa with mm_per_arc_segment := mm }

/-! ## Console entry point (`ArcWelderConsole.cpp`, `main`) -/

/-- Modelled from the spec: `DEFAULT_E_PRECISION` is defined in the
arc_welder headers, which are not under src/.  The spec clamps output
precision to the range [3,6] ("a value below 3 is replaced by 3"), and
the warning printed at the comparison site in `ArcWelderConsole.cpp`
line 286 reads "is less than 3", so the threshold is modelled as 3. -/
def DEFAULT_E_PRECISION : Nat := 3

/-- Modelled from the spec: `DEFAULT_EXTRUSION_RATE_VARIANCE_PERCENT`
is defined in the arc_welder headers, which are not under src/.  The
spec fixes no numeric value; no theorem below depends on this value,
only on the fact that a negative input is replaced by it. -/
def DEFAULT_EXTRUSION_RATE_VARIANCE_PERCENT : ℚ := mkRat 1 20

/-- Modelled from the spec: `DEFAULT_MAX_GCODE_LENGTH` is defined in
the arc_welder headers, which are not under src/.  The argument
description in `ArcWelderConsole.cpp` line 151 reads "0 = no limit"
and the substitution message at line 318 reads "Setting to the
default (no limit)", so the default is modelled as 0. -/
def DEFAULT_MAX_GCODE_LENGTH : Int := 0

/-- The configuration the console `main` extracts from its parsed
command line and stores into `arc_welder_args` (`ArcWelderConsole.cpp`
lines 206-320).  Precision fields are the `unsigned int` values of the
`-x`/`-e` arguments. -/
structure console_args where
  source_path : String
  target_path : String
  resolution_mm : ℚ
  path_tolerance_percent : ℚ
  max_radius_mm : ℚ
  min_arc_segments : Int
  mm_per_arc_segment : ℚ
  allow_3d_arcs : Bool
  allow_travel_arcs : Bool
  g90_g91_influences_extruder : Bool
  allow_dynamic_precision : Bool
  default_xyz_precision : Nat
  default_e_precision : Nat
  extrusion_rate_variance_percent : ℚ
  max_gcode_length : Int
deriving DecidableEq

/-- Outcome of the console `main` configuration phase: either it
returns exit status 1 before the `arc_welder` is constructed
(`ArcWelderConsole.cpp` lines 322-325), or it proceeds to construct
the `arc_welder` from the adjusted arguments and call `process()`
(line 386-388). -/
inductive console_outcome
  | config_error (exit_code : Int)
  | run (adjusted : console_args)
deriving DecidableEq

/-- The precision adjustment in `main` (`ArcWelderConsole.cpp` lines
276-302): four successive checks on the local `xyz_precision` and
`e_precision` variables, in source order. -/
def adjust_precisions (xyz_precision e_precision : Nat) : Nat × Nat :=
  let xyz_precision := if xyz_precision < 3 then 3 else xyz_precision
  let e_precision := if e_precision < DEFAULT_E_PRECISION then 3 else e_precision
  let xyz_precision := if xyz_precision > 6 then 6 else xyz_precision
  let e_precision := if e_precision > 6 then 6 else e_precision
  (xyz_precision, e_precision)

/-- The warn-and-substitute adjustments of `main`
(`ArcWelderConsole.cpp` lines 251-320), in source order: a negative
`min_arc_segments` becomes 0, a negative `mm_per_arc_segment` becomes
0, the precision clamp is applied and stored, a negative
`extrusion_rate_variance_percent` becomes the default, and a negative
`max_gcode_length` becomes the default.  Each substitution prints a
warning and processing continues; none of them sets `has_error`. -/
def console_adjust_args (a : console_args) : console_args :=
  let a := if a.min_arc_segments < 0 then { a with min_arc_segments := 0 } else a
  let a := if a.mm_per_arc_segment < 0 then { a with mm_per_arc_segment := 0 } else a
  let p := adjust_precisions a.default_xyz_precision a.default_e_precision
  let a := { a with default_xyz_precision := p.1, default_e_precision := p.2 }
  let a := if a.extrusion_rate_variance_percent < 0 then
      { a with extrusion_rate_variance_percent := DEFAULT_EXTRUSION_RATE_VARIANCE_PERCENT }
    else a
  let a := if a.max_gcode_length < 0 then
      { a with max_gcode_length := DEFAULT_MAX_GCODE_LENGTH }
    else a
  a

/-- The console `main` configuration phase (`ArcWelderConsole.cpp`
lines 206-325): target-path defaulting (lines 209-212), the two
`has_error` checks (lines 233-243, which read the argument values
before any substitution), the warn-and-substitute adjustments (lines
251-320), and the final `if (has_error) return 1;` (lines 322-325).
Pure warnings (`max_radius_mm`, path-tolerance magnitude) print text
but change nothing and are not modelled.  Log-level handling is part
of the out-of-scope logging collaborator (spec §1) and its argument
values are already limited by a TCLAP `ValuesConstraint`, so it is
omitted. -/
def console_main (a : console_args) : console_outcome :=
  let a := if a.target_path = "" then { a with target_path := a.source_path } else a
  let has_error := false
  let has_error := if a.resolution_mm ≤ 0 then true else has_error
  let has_error := if a.path_tolerance_percent < 0 then true else has_error
  let a := console_adjust_args a
  if has_error then console_outcome.config_error 1
  else console_outcome.run a

/-! ## Inverse-processing entry point
(`ArcWelderInverseProcessor.cpp`, `run_arc_straightener`) -/

/-- `TCLAP::ArgException`: the carried text, the argument identifier
and the type description, as passed to the three-argument constructor
used throughout `ArcWelderInverseProcessor.cpp`. -/
structure ArgException where
  text : String
  arg_id : String
  type_description : String
deriving DecidableEq

/-- `firmware::is_valid_version` (declared in firmware.h lines
353-358; its definition is in firmware.cpp, which is not under src/).
Modelled from the spec: the firmware introspection interface exposes
an ordered list of version labels per firmware, and a version string
is valid exactly when it is one of them. -/
def is_valid_version (version_names : List String) (version : String) : Bool :=
  version_names.contains version

/-- `get_firmware_type_from_string` (`ArcWelderInverseProcessor.cpp`
lines 542-553): returns the index `i` with
`firmware_type_names[i] == firmware_type`, cast to `firmware_types`;
when no name matches, falls through to
`return static_cast<firmware_types>(DEFAULT_FIRMWARE_TYPE);`
(the "We should never get here" fallback). -/
def firmware_type_of_index : Nat → firmware_types
  | 0 => firmware_types.MARLIN_1
  | 1 => firmware_types.MARLIN_2
  | 2 => firmware_types.REPETIER
  | 3 => firmware_types.PRUSA
  | _ => firmware_types.SMOOTHIEWARE

/-- See `firmware_type_of_index`. -/
def get_firmware_type_from_string (firmware_type : String) : firmware_types :=
  match firmware_type_names.findIdx? (fun n => n == firmware_type) with
  | some i => firmware_type_of_index i
  | none => DEFAULT_FIRMWARE_TYPE

/-- The version-name tables of the five firmware instances created by
`run_arc_straightener` / `is_firmware_version_valid_for_type`.  The
tables themselves live in marlin_1.cpp etc., which are not under src/,
so they are abstracted as parameters. -/
structure firmware_tables where
  marlin_1_versions : List String
  marlin_2_versions : List String
  repetier_versions : List String
  prusa_versions : List String
  smoothieware_versions : List String
deriving DecidableEq

/-- The version list the five-way switch in
`is_firmware_version_valid_for_type` consults for each firmware type. -/
def firmware_version_names (t : firmware_tables) :
    firmware_types → List String
  | firmware_types.MARLIN_1 => t.marlin_1_versions
  | firmware_types.MARLIN_2 => t.marlin_2_versions
  | firmware_types.REPETIER => t.repetier_versions
  | firmware_types.PRUSA => t.prusa_versions
  | firmware_types.SMOOTHIEWARE => t.smoothieware_versions

/-- The `TCLAP::ArgException` built identically in all five branches of
`is_firmware_version_valid_for_type` (`ArcWelderInverseProcessor.cpp`
lines 568-597). -/
def unknown_version_exception (firmware_version firmware_type_string
    firmware_version_arg_name : String) : ArgException :=
  { text := "Unknown Version Exception"
    arg_id := firmware_version_arg_name
    type_description := "\x27" ++ firmware_version ++
      "\x27 is not a valid version for " ++ firmware_type_string ++
      " firmware type." }

/-- `is_firmware_version_valid_for_type` (`ArcWelderInverseProcessor.cpp`
lines 555-599).  The C++ function is declared `bool` but no execution
path executes a `return` statement: each switch case either throws on
an invalid version or breaks, and the function body then ends without
returning a value.  The result type `Except ArgException (Option Bool)`
makes that visible: a thrown exception is `Except.error`, and the
fall-off-the-end success path is `Except.ok none` — no boolean is ever
produced. -/
def is_firmware_version_valid_for_type (t : firmware_tables)
    (firmware_type_string firmware_version firmware_version_arg_name : String) :
    Except ArgException (Option Bool) :=
  let firmware_type := get_firmware_type_from_string firmware_type_string
  match firmware_type with
  | firmware_types.MARLIN_1 =>
    if !(is_valid_version t.marlin_1_versions firmware_version) then
      Except.error (unknown_version_exception firmware_version
        firmware_type_string firmware_version_arg_name)
    else Except.ok none
  | firmware_types.MARLIN_2 =>
    if !(is_valid_version t.marlin_2_versions firmware_version) then
      Except.error (unknown_version_exception firmware_version
        firmware_type_string firmware_version_arg_name)
    else Except.ok none
  | firmware_types.REPETIER =>
    if !(is_valid_version t.repetier_versions firmware_version) then
      Except.error (unknown_version_exception firmware_version
        firmware_type_string firmware_version_arg_name)
    else Except.ok none
  | firmware_types.PRUSA =>
    if !(is_valid_version t.prusa_versions firmware_version) then
      Except.error (unknown_version_exception firmware_version
        firmware_type_string firmware_version_arg_name)
    else Except.ok none
  | firmware_types.SMOOTHIEWARE =>
    if !(is_valid_version t.smoothieware_versions firmware_version) then
      Except.error (unknown_version_exception firmware_version
        firmware_type_string firmware_version_arg_name)
    else Except.ok none

/-- `utilities::replace(s, "_", "-")` as used by
`get_available_arguments_string` (utilities.cpp is not under src/):
replaces every underscore with a dash; for the single-character pattern
used here this is a character map. -/
def replace_underscores (s : String) : String :=
  String.map (fun c => if c = '_' then '-' else c) s

/-- `get_available_arguments_string` (`ArcWelderInverseProcessor.cpp`
lines 527-540): joins the argument names with ", ", prefixing each
with "--" and replacing underscores with dashes. -/
def get_available_arguments_string (firmware_arguments : List String) : String :=
  firmware_arguments.foldl
    (fun available_argument_string it =>
      (if available_argument_string.length > 0 then
        available_argument_string ++ ", "
      else available_argument_string) ++ "--" ++ replace_underscores it)
    ""

/-- The `TCLAP::ArgException` built by each override check in
`run_arc_straightener` (`ArcWelderInverseProcessor.cpp` lines
322-415): "Invalid Argument For Firmware", the argument's name, and a
description listing the supported parameters of the selected
firmware+version. -/
def invalid_argument_exception (arg_name firmware_type_string
    firmware_version_string : String) (fa : firmware_arguments) : ArgException :=
  { text := "Invalid Argument For Firmware"
    arg_id := arg_name
    type_description := "The argument does not apply to the " ++
      firmware_type_string ++ " " ++ firmware_version_string ++
      " firmware.  Only the following parameters are supported: " ++
      get_available_arguments_string fa.get_available_arguments }

/-- The parsed command line of `run_arc_straightener`.  A `some` value
models `arg.isSet()` returning true with the given parsed value; `none`
models an argument the caller did not supply.  The
`--print-firmware-defaults` help path (which returns before any of the
code modelled here) is outside this model, as is the log-level lookup,
which belongs to the out-of-scope logging collaborator (spec §1). -/
structure straightener_cli where
  source_set : Bool
  source_path : String
  target_path : String
  firmware_type_string : String
  firmware_version_string : String
  mm_per_arc_segment : Option ℚ
  min_mm_per_arc_segment : Option ℚ
  min_arc_segments : Option Int
  arc_segments_per_sec : Option ℚ
  g90_g91_influences_extruder : Option String
  n_arc_correction : Option Int
  mm_max_arc_error : Option ℚ
  min_circle_segments : Option Int
  min_arc_segment_mm : Option ℚ
  max_arc_segment_mm : Option ℚ
deriving DecidableEq

/-- One override block of `run_arc_straightener` (`ArcWelderInverseProcessor.cpp`
lines 322-415): if the argument `isSet()`, check
`is_argument_used(argument_name)` and either throw the
"Invalid Argument For Firmware" exception or assign the supplied value. -/
def apply_optional_override {α : Type} (firmware_type_string
    firmware_version_string : String) (fa : firmware_arguments)
    (argument_name arg_cli_name : String) (value : Option α)
    (assign : firmware_arguments → α → firmware_arguments) :
    Except ArgException firmware_arguments :=
  match value with
  | none => Except.ok fa
  | some v =>
    if fa.is_argument_used argument_name then Except.ok (assign fa v)
    else Except.error (invalid_argument_exception arg_cli_name
      firmware_type_string firmware_version_string fa)

/-- The unconditional effect of one override block when it does not
throw: the assignment applied when the argument is set, the identity
otherwise. -/
def apply_override_step {α : Type} (fa : firmware_arguments)
    (value : Option α)
    (assign : firmware_arguments → α → firmware_arguments) :
    firmware_arguments :=
  match value with
  | none => fa
  | some v => assign fa v

/-- The override-application sequence of `run_arc_straightener`
(`ArcWelderInverseProcessor.cpp` lines 321-415), in source order.
The three alias arguments (`min_circle_segments`,
`min_arc_segment_mm`, `max_arc_segment_mm`) are applied through the
alias setters, so they write the aliased fields last. -/
def apply_overrides (firmware_type_string firmware_version_string : String)
    (fa : firmware_arguments) (cli : straightener_cli) :
    Except ArgException firmware_arguments := do
  let fa ← apply_optional_override firmware_type_string firmware_version_string
    fa ("mm_per_arc_segment") ("mm-per-arc-segment") cli.mm_per_arc_segment
    (fun fa v => { fa with mm_per_arc_segment := v })
  let fa ← apply_optional_override firmware_type_string firmware_version_string
    fa ("min_mm_per_arc_segment") ("min-mm-per-arc-segment") cli.min_mm_per_arc_segment
    (fun fa v => { fa with min_mm_per_arc_segment := v })
  let fa ← apply_optional_override firmware_type_string firmware_version_string
    fa ("min_arc_segments") ("min-arc-segments") cli.min_arc_segments
    (fun fa v => { fa with min_arc_segments := v })
  let fa ← apply_optional_override firmware_type_string firmware_version_string
    fa ("arc_segments_per_sec") ("arc-segments-per-second") cli.arc_segments_per_sec
    (fun fa v => { fa with arc_segments_per_sec := v })
  let fa ← apply_optional_override firmware_type_string firmware_version_string
    fa ("g90_g91_influences_extruder") ("g90-influences-extruder")
    cli.g90_g91_influences_extruder
    (fun fa v => { fa with g90_g91_influences_extruder := v == "TRUE" })
  let fa ← apply_optional_override firmware_type_string firmware_version_string
    fa ("n_arc_correction") ("n-arc-correction") cli.n_arc_correction
    (fun fa v => { fa with n_arc_correction := v })
  let fa ← apply_optional_override firmware_type_string firmware_version_string
    fa ("mm_max_arc_error") ("mm-max-arc-error") cli.mm_max_arc_error
    (fun fa v => { fa with mm_max_arc_error := v })
  let fa ← apply_optional_override firmware_type_string firmware_version_string
    fa ("min_circle_segments") ("min-circle-segments") cli.min_circle_segments
    (fun fa v => fa.set_min_circle_segments v)
  let fa ← apply_optional_override firmware_type_string firmware_version_string
    fa ("min_arc_segment_mm") ("min-arc-segment-mm") cli.min_arc_segment_mm
    (fun fa v => fa.set_min_arc_segment_mm v)
  let fa ← apply_optional_override firmware_type_string firmware_version_string
    fa ("max_arc_segment_mm") ("max-arc-segment-mm") cli.max_arc_segment_mm
    (fun fa v => fa.set_max_arc_segment_mm v)
  pure fa

/-- The value `apply_overrides` produces when no check throws: the ten
assignments applied unconditionally in source order. -/
def apply_overrides_result (fa : firmware_arguments)
    (cli : straightener_cli) : firmware_arguments :=
  let fa := apply_override_step fa cli.mm_per_arc_segment
    (fun fa v => { fa with mm_per_arc_segment := v })
  let fa := apply_override_step fa cli.min_mm_per_arc_segment
    (fun fa v => { fa with min_mm_per_arc_segment := v })
  let fa := apply_override_step fa cli.min_arc_segments
    (fun fa v => { fa with min_arc_segments := v })
  let fa := apply_override_step fa cli.arc_segments_per_sec
    (fun fa v => { fa with arc_segments_per_sec := v })
  let fa := apply_override_step fa cli.g90_g91_influences_extruder
    (fun fa v => { fa with g90_g91_influences_extruder := v == "TRUE" })
  let fa := apply_override_step fa cli.n_arc_correction
    (fun fa v => { fa with n_arc_correction := v })
  let fa := apply_override_step fa cli.mm_max_arc_error
    (fun fa v => { fa with mm_max_arc_error := v })
  let fa := apply_override_step fa cli.min_circle_segments
    (fun fa v => fa.set_min_circle_segments v)
  let fa := apply_override_step fa cli.min_arc_segment_mm
    (fun fa v => fa.set_min_arc_segment_mm v)
  let fa := apply_override_step fa cli.max_arc_segment_mm
    (fun fa v => fa.set_max_arc_segment_mm v)
  fa

/-- True when every override the caller supplied names a parameter in
the applicability set of `fa` — the condition under which no override
check of `run_arc_straightener` throws. -/
def all_set_overrides_used (fa : firmware_arguments)
    (cli : straightener_cli) : Bool :=
  (cli.mm_per_arc_segment.isNone || fa.is_argument_used ("mm_per_arc_segment")) &&
  (cli.min_mm_per_arc_segment.isNone || fa.is_argument_used ("min_mm_per_arc_segment")) &&
  (cli.min_arc_segments.isNone || fa.is_argument_used ("min_arc_segments")) &&
  (cli.arc_segments_per_sec.isNone || fa.is_argument_used ("arc_segments_per_sec")) &&
  (cli.g90_g91_influences_extruder.isNone || fa.is_argument_used ("g90_g91_influences_extruder")) &&
  (cli.n_arc_correction.isNone || fa.is_argument_used ("n_arc_correction")) &&
  (cli.mm_max_arc_error.isNone || fa.is_argument_used ("mm_max_arc_error")) &&
  (cli.min_circle_segments.isNone || fa.is_argument_used ("min_circle_segments")) &&
  (cli.min_arc_segment_mm.isNone || fa.is_argument_used ("min_arc_segment_mm")) &&
  (cli.max_arc_segment_mm.isNone || fa.is_argument_used ("max_arc_segment_mm"))

/-- Modelled from the spec: `utilities::get_temp_file_path_for_file`
(utilities.cpp is not under src/) creates a temporary file path
derived from the source path ("a uuid with a tmp extension", per the
comment at `ArcWelderInverseProcessor.cpp` line 464); only the fact
that the run writes to this path before replacing the source matters
to the claims below. -/
def get_temp_file_path_for_file (path : String) : String :=
  path ++ ".tmp"

/-- The externally visible file operations `run_arc_straightener`
performs after configuration succeeds: `interpolator.process()`
writing the target file, `std::remove`, and `std::rename`
(`ArcWelderInverseProcessor.cpp` lines 491-515). -/
inductive file_action
  | write_output (path : String)
  | remove (path : String)
  | rename (src_path dst_path : String)
deriving DecidableEq

/-- Outcome of `run_arc_straightener`:
`parse_exit` — the command-line parse itself rejects the invocation
and terminates the process with a non-zero status (modelled from the
spec: the vendored TCLAP library enforces both the `ValuesConstraint`
built from `firmware_type_names` at `ArcWelderInverseProcessor.cpp`
lines 101-110 and the `required=true` flag on `source_arg` at line 95,
reporting the offending argument; per spec §6/§7 an unknown firmware
or an unset required source path is fatal before stream processing
begins);
`config_error` — a `TCLAP::ArgException` is thrown after parsing and
the process terminates before any file processing;
`finished` — the function runs to a `return` statement, with the file
actions it performed. -/
inductive run_outcome
  | parse_exit
  | config_error (e : ArgException)
  | finished (exit_code : Int) (actions : List file_action)
deriving DecidableEq

/-- The file actions of an outcome (none unless the run finished). -/
def run_actions : run_outcome → List file_action
  | run_outcome.finished _ actions => actions
  | _ => []

/-- The `firmware_arguments` the entry point continues with after the
defaults switch (`ArcWelderInverseProcessor.cpp` lines 275-300):
`args.firmware_args.version` is set from the command line, then the
switch selects a firmware instance and replaces `args.firmware_args`
with `get_default_arguments_for_current_version()` (the per-firmware
tables live outside src/ and are the parameter `d`).  The switch
scrutinee is `args.firmware_args.firmware_type`, which still holds the
constructor default: the local `firmware_type` computed at line 269 is
never assigned into `args.firmware_args`. -/
def straightener_default_args
    (d : firmware_types → String → firmware_arguments)
    (version : String) : firmware_arguments :=
  let fa0 := { default_firmware_arguments with version := version }
  match fa0.firmware_type with
  | firmware_types.MARLIN_1 => d firmware_types.MARLIN_1 fa0.version
  | firmware_types.MARLIN_2 => d firmware_types.MARLIN_2 fa0.version
  | firmware_types.REPETIER => d firmware_types.REPETIER fa0.version
  | firmware_types.PRUSA => d firmware_types.PRUSA fa0.version
  | firmware_types.SMOOTHIEWARE => d firmware_types.SMOOTHIEWARE fa0.version

/-- `run_arc_straightener` (`ArcWelderInverseProcessor.cpp` lines
60-524), from command-line parsing to the final file replacement, for
a conversion run (no `--print-firmware-defaults`): the TCLAP
firmware-type constraint, the version check (line 274), the defaults
switch (lines 278-300), the required-source enforcement of
`cmd.parse` (see the comment at the branch below), target-path
defaulting (lines 316-319), the ten override checks (lines 322-415),
and the write/remove/rename sequence for an overwrite run or the
plain write for a two-path run (lines 453-515). -/
def run_arc_straightener (t : firmware_tables)
    (d : firmware_types → String → firmware_arguments)
    (cli : straightener_cli) : run_outcome :=
  if firmware_type_names.contains cli.firmware_type_string = false then
    run_outcome.parse_exit
  else
    match is_firmware_version_valid_for_type t cli.firmware_type_string
      cli.firmware_version_string ("firmware-version") with
    | Except.error e => run_outcome.config_error e
    | Except.ok _ =>
      let fa := straightener_default_args d cli.firmware_version_string
      if cli.source_set = false then
        -- Modelled from the spec: source_arg is constructed with
        -- required=true (line 95) and added to cmd (line 216), and
        -- cmd.parse (line 264, vendored tclap outside src/) enforces
        -- required arguments, reporting the missing "source" argument
        -- and terminating with a non-zero status (spec section 6:
        -- "validated before a run starts"; section 7: an "unset
        -- required source path" is fatal).  This makes the in-src
        -- fallback at lines 308-312 (print "The <source> parameter is
        -- required." and return 0) unreachable dead code.  TCLAP
        -- detects the missing argument during parse, before the
        -- version check at line 274; the model performs the check
        -- here, at the site of the dead fallback, so that for an
        -- invocation that both lacks a source and names an invalid
        -- version the model reports the version exception where the
        -- real program reports the missing source — both fatal,
        -- non-zero, pre-processing outcomes that no claim
        -- distinguishes.
        run_outcome.parse_exit
      else
        let source_path := cli.source_path
        let target_path := if cli.target_path = "" then source_path
          else cli.target_path
        match apply_overrides cli.firmware_type_string
          cli.firmware_version_string fa cli with
        | Except.error e => run_outcome.config_error e
        | Except.ok _ =>
          if source_path = target_path then
            let temp_file_path := get_temp_file_path_for_file source_path
            run_outcome.finished 0
              [file_action.write_output temp_file_path,
               file_action.remove source_path,
               file_action.rename temp_file_path source_path]
          else
            run_outcome.finished 0 [file_action.write_output target_path]

/-! ## Concrete fixtures used by the witnesses -/

/-- A benign console configuration used as the base of concrete
witnesses. -/
def sample_console_args : console_args :=
  { source_path := "in.gcode"
    target_path := "out.gcode"
    resolution_mm := 1
    path_tolerance_percent := 0
    max_radius_mm := 1000
    min_arc_segments := 0
    mm_per_arc_segment := 0
    allow_3d_arcs := false
    allow_travel_arcs := false
    g90_g91_influences_extruder := false
    allow_dynamic_precision := false
    default_xyz_precision := 3
    default_e_precision := 3
    extrusion_rate_variance_percent := 0
    max_gcode_length := 0 }

/-- Concrete version tables: every firmware supports exactly the
`LATEST_RELEASE` label. -/
def sample_tables : firmware_tables :=
  { marlin_1_versions := ["LATEST_RELEASE"]
    marlin_2_versions := ["LATEST_RELEASE"]
    repetier_versions := ["LATEST_RELEASE"]
    prusa_versions := ["LATEST_RELEASE"]
    smoothieware_versions := ["LATEST_RELEASE"]
  }

/-- Concrete defaults tables in which every known argument is in the
applicability set. -/
def sample_defaults_all_used : firmware_types → String → firmware_arguments :=
  fun _ v => { default_firmware_arguments with
    version := v, used_arguments := all_arguments }

/-- Concrete defaults tables in which the applicability set is empty. -/
def sample_defaults_none_used : firmware_types → String → firmware_arguments :=
  fun _ v => { default_firmware_arguments with
    version := v, used_arguments := [] }

/-- A benign inverse-processor command line: valid firmware type and
version, a source path, no target and no overrides. -/
def sample_cli : straightener_cli :=
  { source_set := true
    source_path := "in.gcode"
    target_path := ""
    firmware_type_string := "MARLIN_2"
    firmware_version_string := "LATEST_RELEASE"
    mm_per_arc_segment := none
    min_mm_per_arc_segment := none
    min_arc_segments := none
    arc_segments_per_sec := none
    g90_g91_influences_extruder := none
    n_arc_correction := none
    mm_max_arc_error := none
    min_circle_segments := none
    min_arc_segment_mm := none
    max_arc_segment_mm := none }

/-! ## Helper lemmas -/

/-- `List.contains` agrees with membership. -/
lemma contains_iff_mem (l : List String) (a : String) :
    l.contains a = true ↔ a ∈ l := by
  simp [List.contains]

/-- A push-back loop over a list accumulates exactly the filtered list. -/
lemma foldl_push_back_eq_filter (p : String → Bool) :
    ∀ (l acc : List String),
      l.foldl (fun acc x => if p x then acc ++ [x] else acc) acc =
        acc ++ l.filter p := by
  intro l
  induction l with
  | nil => intro acc; simp
  | cons x xs ih =>
    intro acc
    cases hp : p x <;> simp [List.foldl, hp, ih, List.filter_cons]

/-- The precision adjustment is the clamp to [3,6]. -/
lemma adjust_precisions_eq (x e : Nat) :
    adjust_precisions x e = (min 6 (max 3 x), min 6 (max 3 e)) := by
  unfold adjust_precisions DEFAULT_E_PRECISION
  split_ifs <;> simp [Nat.min_def, Nat.max_def] <;> split_ifs <;> omega

/-- The adjustment phase leaves the target path unchanged. -/
lemma console_adjust_args_target_path (a : console_args) :
    (console_adjust_args a).target_path = a.target_path := by
  simp only [console_adjust_args]
  split_ifs <;> rfl

/-- The adjustment phase stores the clamped xyz precision. -/
lemma console_adjust_args_xyz (a : console_args) :
    (console_adjust_args a).default_xyz_precision =
      min 6 (max 3 a.default_xyz_precision) := by
  simp only [console_adjust_args]
  split_ifs <;> simp [adjust_precisions_eq]

/-- The adjustment phase stores the clamped e precision. -/
lemma console_adjust_args_e (a : console_args) :
    (console_adjust_args a).default_e_precision =
      min 6 (max 3 a.default_e_precision) := by
  simp only [console_adjust_args]
  split_ifs <;> simp [adjust_precisions_eq]

/-- The adjustment phase replaces a negative `min_arc_segments` by 0. -/
lemma console_adjust_args_min_arc_segments (a : console_args) :
    (console_adjust_args a).min_arc_segments =
      if a.min_arc_segments < 0 then 0 else a.min_arc_segments := by
  simp only [console_adjust_args]
  split_ifs <;> simp_all

/-- The adjustment phase replaces a negative `mm_per_arc_segment` by 0. -/
lemma console_adjust_args_mm_per_arc_segment (a : console_args) :
    (console_adjust_args a).mm_per_arc_segment =
      if a.mm_per_arc_segment < 0 then 0 else a.mm_per_arc_segment := by
  simp only [console_adjust_args]
  split_ifs <;> simp_all

/-- The adjustment phase replaces a negative
`extrusion_rate_variance_percent` by the default. -/
lemma console_adjust_args_extrusion (a : console_args) :
    (console_adjust_args a).extrusion_rate_variance_percent =
      if a.extrusion_rate_variance_percent < 0 then
        DEFAULT_EXTRUSION_RATE_VARIANCE_PERCENT
      else a.extrusion_rate_variance_percent := by
  simp only [console_adjust_args]
  split_ifs <;> simp_all

/-- The adjustment phase replaces a negative `max_gcode_length` by the
default. -/
lemma console_adjust_args_max_gcode_length (a : console_args) :
    (console_adjust_args a).max_gcode_length =
      if a.max_gcode_length < 0 then DEFAULT_MAX_GCODE_LENGTH
      else a.max_gcode_length := by
  simp only [console_adjust_args]
  split_ifs <;> simp_all

/-- `console_main` as a single conditional. -/
lemma console_main_eq (a : console_args) :
    console_main a =
      if a.resolution_mm ≤ 0 ∨ a.path_tolerance_percent < 0 then
        console_outcome.config_error 1
      else
        console_outcome.run (console_adjust_args
          (if a.target_path = "" then { a with target_path := a.source_path }
           else a)) := by
  unfold console_main
  split_ifs <;> simp_all
  all_goals
    intro h2
    rcases ‹a.resolution_mm ≤ 0 ∨ a.path_tolerance_percent < 0› with hh | hh
    · exact hh
    · exact absurd hh (not_lt.mpr h2)

/-! ## Claim theorems: console entry point -/

/-- Claim C4: if the console entry point is invoked with
`resolution_mm <= 0` or with `path_tolerance_percent < 0`, it reports
a descriptive error message and returns exit status 1 before
constructing the `arc_welder` or calling `process()`, so no output
file content is produced for such a run. -/
theorem console_rejects_bad_tolerance (a : console_args)
    (h : a.resolution_mm ≤ 0 ∨ a.path_tolerance_percent < 0) :
    console_main a = console_outcome.config_error 1 := by
  rw [console_main_eq, if_pos h]

/-- Witness for C4 at a concrete input with a zero resolution. -/
theorem console_rejects_bad_tolerance_witness :
    console_main { sample_console_args with resolution_mm := 0 } =
      console_outcome.config_error 1 :=
  console_rejects_bad_tolerance _ (Or.inl (by norm_num))

/-- Claim C6: for every user-supplied `default_xyz_precision` and
`default_e_precision` value, the precision values the console entry
point stores into the run arguments are clamped to [3,6]: a value
below 3 is replaced by 3, a value above 6 is replaced by 6, and a
value already in [3,6] is stored unchanged. -/
theorem console_precisions_clamped (a adjusted : console_args)
    (h : console_main a = console_outcome.run adjusted) :
    adjusted.default_xyz_precision = min 6 (max 3 a.default_xyz_precision) ∧
    adjusted.default_e_precision = min 6 (max 3 a.default_e_precision) := by
  rw [console_main_eq] at h
  split_ifs at h with h1 h2 <;>
  · injection h with h
    subst h
    simp [console_adjust_args_xyz, console_adjust_args_e]

/-- Witness for C6: precisions 9 and 1 are stored as 6 and 3. -/
theorem console_precisions_clamped_witness :
    ∃ adjusted,
      console_main { sample_console_args with
        default_xyz_precision := 9, default_e_precision := 1 } =
        console_outcome.run adjusted ∧
      adjusted.default_xyz_precision = min 6 (max 3 9) ∧
      adjusted.default_e_precision = min 6 (max 3 1) := by
  obtain ⟨x, hx⟩ :
      ∃ x, console_main { sample_console_args with
        default_xyz_precision := 9, default_e_precision := 1 } =
        console_outcome.run x := ⟨_, rfl⟩
  have h := console_precisions_clamped _ _ hx
  exact ⟨x, hx, h.1, h.2⟩

/-- Counterexample to C3 as stated: with `min_arc_segments = -1` and
an otherwise valid configuration the console entry point does not
fail fast — it starts processing with the silently substituted
value 0 in place of the invalid one. -/
theorem negative_min_arc_segments_does_not_fail_fast :
    ∃ adjusted,
      console_main { sample_console_args with min_arc_segments := -1 } =
        console_outcome.run adjusted ∧
      adjusted.min_arc_segments = 0 :=
  ⟨_, rfl, rfl⟩

/-- Claim C3 as amended: a negative `min_arc_segments`,
`mm_per_arc_segment`, `extrusion_rate_variance_percent` or
`max_gcode_length` does not stop the run; each is replaced (by 0, 0,
the default variance, and the default length, respectively), a warning
is printed, and processing proceeds with the substituted value.  Only
`resolution_mm <= 0` and `path_tolerance_percent < 0` fail fast. -/
theorem invalid_console_values_warn_and_substitute (a : console_args)
    (hres : 0 < a.resolution_mm) (htol : 0 ≤ a.path_tolerance_percent) :
    ∃ adjusted, console_main a = console_outcome.run adjusted ∧
      adjusted.min_arc_segments =
        (if a.min_arc_segments < 0 then 0 else a.min_arc_segments) ∧
      adjusted.mm_per_arc_segment =
        (if a.mm_per_arc_segment < 0 then 0 else a.mm_per_arc_segment) ∧
      adjusted.extrusion_rate_variance_percent =
        (if a.extrusion_rate_variance_percent < 0 then
          DEFAULT_EXTRUSION_RATE_VARIANCE_PERCENT
         else a.extrusion_rate_variance_percent) ∧
      adjusted.max_gcode_length =
        (if a.max_gcode_length < 0 then DEFAULT_MAX_GCODE_LENGTH
         else a.max_gcode_length) := by
  have hcond : ¬(a.resolution_mm ≤ 0 ∨ a.path_tolerance_percent < 0) := by
    push_neg
    exact ⟨hres, htol⟩
  refine ⟨console_adjust_args
    (if a.target_path = "" then { a with target_path := a.source_path }
     else a), ?_, ?_, ?_, ?_, ?_⟩
  · rw [console_main_eq, if_neg hcond]
  · rw [console_adjust_args_min_arc_segments]
    by_cases ht : a.target_path = "" <;> simp [ht]
  · rw [console_adjust_args_mm_per_arc_segment]
    by_cases ht : a.target_path = "" <;> simp [ht]
  · rw [console_adjust_args_extrusion]
    by_cases ht : a.target_path = "" <;> simp [ht]
  · rw [console_adjust_args_max_gcode_length]
    by_cases ht : a.target_path = "" <;> simp [ht]

/-- Witness for the amended C3: all four invalid values substituted. -/
theorem invalid_console_values_warn_and_substitute_witness :
    ∃ adjusted,
      console_main { sample_console_args with
        min_arc_segments := -5, mm_per_arc_segment := -1,
        extrusion_rate_variance_percent := -1, max_gcode_length := -2 } =
        console_outcome.run adjusted ∧
      adjusted.min_arc_segments = (if (-5 : Int) < 0 then 0 else -5) ∧
      adjusted.mm_per_arc_segment = (if (-1 : ℚ) < 0 then 0 else -1) ∧
      adjusted.extrusion_rate_variance_percent =
        (if (-1 : ℚ) < 0 then DEFAULT_EXTRUSION_RATE_VARIANCE_PERCENT else -1) ∧
      adjusted.max_gcode_length =
        (if (-2 : Int) < 0 then DEFAULT_MAX_GCODE_LENGTH else -2) :=
  invalid_console_values_warn_and_substitute _
    (by norm_num [sample_console_args]) (by norm_num [sample_console_args])

/-- Claim C7: `is_argument_used(name)` returns true exactly when
`name` is an element of the list returned by
`get_available_arguments()`, and `get_unused_arguments()` returns
exactly those of the eleven known argument names for which
`is_argument_used` is false, in their fixed declaration order. -/
theorem argument_applicability_queries_agree (fa : firmware_arguments)
    (name : String) :
    (fa.is_argument_used name = true ↔ name ∈ fa.get_available_arguments) ∧
    fa.get_unused_arguments =
      all_arguments.filter (fun a => !(fa.is_argument_used a)) ∧
    all_arguments.length = 11 := by
  refine ⟨?_, ?_, rfl⟩
  · exact contains_iff_mem _ _
  · unfold firmware_arguments.get_unused_arguments
    rw [foldl_push_back_eq_filter]
    simp

/-- Claim C8: the alias accessors read and write the same underlying
fields: after `set_min_circle_segments v`, `get_min_circle_segments`
and `min_arc_segments` equal `v`; after `set_min_arc_segment_mm v`,
`get_min_arc_segment_mm` and `min_mm_per_arc_segment` equal `v`; and
after `set_max_arc_segment_mm v`, `get_max_arc_segment_mm` and
`mm_per_arc_segment` equal `v`. -/
theorem alias_accessors_share_fields (fa : firmware_arguments)
    (vi : Int) (vq vr : ℚ) :
    ((fa.set_min_circle_segments vi).get_min_circle_segments = vi ∧
      (fa.set_min_circle_segments vi).min_arc_segments = vi) ∧
    ((fa.set_min_arc_segment_mm vq).get_min_arc_segment_mm = vq ∧
      (fa.set_min_arc_segment_mm vq).min_mm_per_arc_segment = vq) ∧
    ((fa.set_max_arc_segment_mm vr).get_max_arc_segment_mm = vr ∧
      (fa.set_max_arc_segment_mm vr).mm_per_arc_segment = vr) :=
  ⟨⟨rfl, rfl⟩, ⟨rfl, rfl⟩, ⟨rfl, rfl⟩⟩

/-! ## Helper lemmas: inverse-processing entry point -/

/-- Eliminate a successful `Except` bind. -/
lemma except_bind_ok {ε α β : Type} {x : Except ε α} {f : α → Except ε β}
    {b : β} (h : x >>= f = Except.ok b) :
    ∃ a, x = Except.ok a ∧ f a = Except.ok b := by
  cases x with
  | error e => simp [Bind.bind, Except.bind] at h
  | ok a =>
    refine ⟨a, rfl, ?_⟩
    simpa [Bind.bind, Except.bind] using h

/-- `is_argument_used` depends only on the used-arguments list. -/
lemma is_argument_used_congr {fa fb : firmware_arguments}
    (h : fa.used_arguments = fb.used_arguments) (n : String) :
    fa.is_argument_used n = fb.is_argument_used n := by
  simp [firmware_arguments.is_argument_used, h]

/-- A successful override block: the result is the unconditional step,
and if the argument was supplied it was in the applicability set. -/
lemma aoo_ok_elim {α : Type} {fts fvs : String} {fa fa2 : firmware_arguments}
    {n cn : String} {val : Option α}
    {g : firmware_arguments → α → firmware_arguments}
    (h : apply_optional_override fts fvs fa n cn val g = Except.ok fa2) :
    fa2 = apply_override_step fa val g ∧
      (val.isNone || fa.is_argument_used n) = true := by
  cases val with
  | none =>
    simp [apply_optional_override] at h
    simp [apply_override_step, h]
  | some v =>
    by_cases hu : fa.is_argument_used n
    · simp [apply_optional_override, hu] at h
      simp [apply_override_step, h, hu]
    · simp [apply_optional_override, hu] at h

/-- A successful `apply_overrides` produced the unconditional result,
and every supplied override named a parameter in the applicability
set. -/
lemma apply_overrides_ok_elim {fts fvs : String} {fa : firmware_arguments}
    {cli : straightener_cli} {fa2 : firmware_arguments}
    (h : apply_overrides fts fvs fa cli = Except.ok fa2) :
    fa2 = apply_overrides_result fa cli ∧
      all_set_overrides_used fa cli = true := by
  unfold apply_overrides at h
  obtain ⟨a1, h1, h⟩ := except_bind_ok h
  obtain ⟨a2, h2, h⟩ := except_bind_ok h
  obtain ⟨a3, h3, h⟩ := except_bind_ok h
  obtain ⟨a4, h4, h⟩ := except_bind_ok h
  obtain ⟨a5, h5, h⟩ := except_bind_ok h
  obtain ⟨a6, h6, h⟩ := except_bind_ok h
  obtain ⟨a7, h7, h⟩ := except_bind_ok h
  obtain ⟨a8, h8, h⟩ := except_bind_ok h
  obtain ⟨a9, h9, h⟩ := except_bind_ok h
  obtain ⟨a10, h10, hp⟩ := except_bind_ok h
  have hfa2 : a10 = fa2 := by simpa [pure, Except.pure] using hp
  obtain ⟨e1, u1⟩ := aoo_ok_elim h1
  obtain ⟨e2, u2⟩ := aoo_ok_elim h2
  obtain ⟨e3, u3⟩ := aoo_ok_elim h3
  obtain ⟨e4, u4⟩ := aoo_ok_elim h4
  obtain ⟨e5, u5⟩ := aoo_ok_elim h5
  obtain ⟨e6, u6⟩ := aoo_ok_elim h6
  obtain ⟨e7, u7⟩ := aoo_ok_elim h7
  obtain ⟨e8, u8⟩ := aoo_ok_elim h8
  obtain ⟨e9, u9⟩ := aoo_ok_elim h9
  obtain ⟨e10, u10⟩ := aoo_ok_elim h10
  have w1 : a1.used_arguments = fa.used_arguments := by
    rw [e1]; cases cli.mm_per_arc_segment <;> rfl
  have w2 : a2.used_arguments = fa.used_arguments := by
    rw [e2]; cases cli.min_mm_per_arc_segment <;>
      simp [apply_override_step, w1]
  have w3 : a3.used_arguments = fa.used_arguments := by
    rw [e3]; cases cli.min_arc_segments <;>
      simp [apply_override_step, w2]
  have w4 : a4.used_arguments = fa.used_arguments := by
    rw [e4]; cases cli.arc_segments_per_sec <;>
      simp [apply_override_step, w3]
  have w5 : a5.used_arguments = fa.used_arguments := by
    rw [e5]; cases cli.g90_g91_influences_extruder <;>
      simp [apply_override_step, w4]
  have w6 : a6.used_arguments = fa.used_arguments := by
    rw [e6]; cases cli.n_arc_correction <;>
      simp [apply_override_step, w5]
  have w7 : a7.used_arguments = fa.used_arguments := by
    rw [e7]; cases cli.mm_max_arc_error <;>
      simp [apply_override_step, w6]
  have w8 : a8.used_arguments = fa.used_arguments := by
    rw [e8]; cases cli.min_circle_segments <;>
      simp [apply_override_step, firmware_arguments.set_min_circle_segments, w7]
  have w9 : a9.used_arguments = fa.used_arguments := by
    rw [e9]; cases cli.min_arc_segment_mm <;>
      simp [apply_override_step, firmware_arguments.set_min_arc_segment_mm, w8]
  have u2f : (cli.min_mm_per_arc_segment.isNone ||
      fa.is_argument_used ("min_mm_per_arc_segment")) = true := by
    rw [← is_argument_used_congr w1]; exact u2
  have u3f : (cli.min_arc_segments.isNone ||
      fa.is_argument_used ("min_arc_segments")) = true := by
    rw [← is_argument_used_congr w2]; exact u3
  have u4f : (cli.arc_segments_per_sec.isNone ||
      fa.is_argument_used ("arc_segments_per_sec")) = true := by
    rw [← is_argument_used_congr w3]; exact u4
  have u5f : (cli.g90_g91_influences_extruder.isNone ||
      fa.is_argument_used ("g90_g91_influences_extruder")) = true := by
    rw [← is_argument_used_congr w4]; exact u5
  have u6f : (cli.n_arc_correction.isNone ||
      fa.is_argument_used ("n_arc_correction")) = true := by
    rw [← is_argument_used_congr w5]; exact u6
  have u7f : (cli.mm_max_arc_error.isNone ||
      fa.is_argument_used ("mm_max_arc_error")) = true := by
    rw [← is_argument_used_congr w6]; exact u7
  have u8f : (cli.min_circle_segments.isNone ||
      fa.is_argument_used ("min_circle_segments")) = true := by
    rw [← is_argument_used_congr w7]; exact u8
  have u9f : (cli.min_arc_segment_mm.isNone ||
      fa.is_argument_used ("min_arc_segment_mm")) = true := by
    rw [← is_argument_used_congr w8]; exact u9
  have u10f : (cli.max_arc_segment_mm.isNone ||
      fa.is_argument_used ("max_arc_segment_mm")) = true := by
    rw [← is_argument_used_congr w9]; exact u10
  constructor
  · rw [← hfa2, e10, e9, e8, e7, e6, e5, e4, e3, e2, e1]
    rfl
  · simp [all_set_overrides_used, u1, u2f, u3f, u4f, u5f, u6f, u7f,
      u8f, u9f, u10f]

/-- A version in the resolved firmware's table passes the check with
no boolean result. -/
lemma version_check_ok {t : firmware_tables} {s v n : String}
    (h : (firmware_version_names t (get_firmware_type_from_string s)).contains
      v = true) :
    is_firmware_version_valid_for_type t s v n = Except.ok none := by
  cases hft : get_firmware_type_from_string s <;>
  · rw [hft] at h
    simp only [firmware_version_names] at h
    have hm := (contains_iff_mem _ _).mp h
    simp [is_firmware_version_valid_for_type, hft, is_valid_version, h, hm]

/-- A version outside the resolved firmware's table throws the
"Unknown Version Exception". -/
lemma version_check_error {t : firmware_tables} {s v n : String}
    (h : (firmware_version_names t (get_firmware_type_from_string s)).contains
      v = false) :
    is_firmware_version_valid_for_type t s v n =
      Except.error (unknown_version_exception v s n) := by
  have hm : v ∉ firmware_version_names t (get_firmware_type_from_string s) := by
    intro hmem
    rw [(contains_iff_mem _ _).mpr hmem] at h
    exact Bool.noConfusion h
  cases hft : get_firmware_type_from_string s <;>
  · rw [hft] at h hm
    simp only [firmware_version_names] at h hm
    simp [is_firmware_version_valid_for_type, hft, is_valid_version, h, hm]

/-- A step whose value is absent is the identity. -/
lemma apply_override_step_none {α : Type} (fa : firmware_arguments)
    (g : firmware_arguments → α → firmware_arguments) :
    apply_override_step fa (none : Option α) g = fa := rfl

/-- A step preserves `mm_per_arc_segment` when its assignment does. -/
lemma apply_override_step_mm {α : Type} (fa : firmware_arguments)
    (val : Option α) (g : firmware_arguments → α → firmware_arguments)
    (hg : ∀ a v, (g a v).mm_per_arc_segment = a.mm_per_arc_segment) :
    (apply_override_step fa val g).mm_per_arc_segment =
      fa.mm_per_arc_segment := by
  cases val with
  | none => rfl
  | some v => exact hg fa v

/-- A step preserves `min_mm_per_arc_segment` when its assignment does. -/
lemma apply_override_step_min_mm {α : Type} (fa : firmware_arguments)
    (val : Option α) (g : firmware_arguments → α → firmware_arguments)
    (hg : ∀ a v, (g a v).min_mm_per_arc_segment = a.min_mm_per_arc_segment) :
    (apply_override_step fa val g).min_mm_per_arc_segment =
      fa.min_mm_per_arc_segment := by
  cases val with
  | none => rfl
  | some v => exact hg fa v

/-- A step preserves `min_arc_segments` when its assignment does. -/
lemma apply_override_step_min_arc {α : Type} (fa : firmware_arguments)
    (val : Option α) (g : firmware_arguments → α → firmware_arguments)
    (hg : ∀ a v, (g a v).min_arc_segments = a.min_arc_segments) :
    (apply_override_step fa val g).min_arc_segments =
      fa.min_arc_segments := by
  cases val with
  | none => rfl
  | some v => exact hg fa v

/-- A step preserves `arc_segments_per_sec` when its assignment does. -/
lemma apply_override_step_sec {α : Type} (fa : firmware_arguments)
    (val : Option α) (g : firmware_arguments → α → firmware_arguments)
    (hg : ∀ a v, (g a v).arc_segments_per_sec = a.arc_segments_per_sec) :
    (apply_override_step fa val g).arc_segments_per_sec =
      fa.arc_segments_per_sec := by
  cases val with
  | none => rfl
  | some v => exact hg fa v

/-- A step preserves `g90_g91_influences_extruder` when its assignment
does. -/
lemma apply_override_step_g90 {α : Type} (fa : firmware_arguments)
    (val : Option α) (g : firmware_arguments → α → firmware_arguments)
    (hg : ∀ a v, (g a v).g90_g91_influences_extruder =
      a.g90_g91_influences_extruder) :
    (apply_override_step fa val g).g90_g91_influences_extruder =
      fa.g90_g91_influences_extruder := by
  cases val with
  | none => rfl
  | some v => exact hg fa v

/-- A step preserves `n_arc_correction` when its assignment does. -/
lemma apply_override_step_narc {α : Type} (fa : firmware_arguments)
    (val : Option α) (g : firmware_arguments → α → firmware_arguments)
    (hg : ∀ a v, (g a v).n_arc_correction = a.n_arc_correction) :
    (apply_override_step fa val g).n_arc_correction =
      fa.n_arc_correction := by
  cases val with
  | none => rfl
  | some v => exact hg fa v

/-- A step preserves `mm_max_arc_error` when its assignment does. -/
lemma apply_override_step_maxerr {α : Type} (fa : firmware_arguments)
    (val : Option α) (g : firmware_arguments → α → firmware_arguments)
    (hg : ∀ a v, (g a v).mm_max_arc_error = a.mm_max_arc_error) :
    (apply_override_step fa val g).mm_max_arc_error =
      fa.mm_max_arc_error := by
  cases val with
  | none => rfl
  | some v => exact hg fa v

/-- `run_arc_straightener` after a valid firmware type and version:
the missing-source early return, then the override checks, then the
file actions. -/
lemma run_arc_straightener_eq {t : firmware_tables}
    {d : firmware_types → String → firmware_arguments}
    {cli : straightener_cli}
    (hft : firmware_type_names.contains cli.firmware_type_string = true)
    (hver : (firmware_version_names t
      (get_firmware_type_from_string cli.firmware_type_string)).contains
      cli.firmware_version_string = true) :
    run_arc_straightener t d cli =
      if cli.source_set = false then run_outcome.parse_exit
      else
        match apply_overrides cli.firmware_type_string
          cli.firmware_version_string
          (straightener_default_args d cli.firmware_version_string) cli with
        | Except.error e => run_outcome.config_error e
        | Except.ok _ =>
          if cli.source_path =
              (if cli.target_path = "" then cli.source_path
               else cli.target_path) then
            run_outcome.finished 0
              [file_action.write_output
                (get_temp_file_path_for_file cli.source_path),
               file_action.remove cli.source_path,
               file_action.rename (get_temp_file_path_for_file cli.source_path)
                 cli.source_path]
          else
            run_outcome.finished 0
              [file_action.write_output
                (if cli.target_path = "" then cli.source_path
                 else cli.target_path)] := by
  unfold run_arc_straightener
  rw [version_check_ok hver]
  simp [hft]
  intro hc
  exact absurd ((contains_iff_mem _ _).mp hft) hc

/-- If some supplied override is outside the applicability set, the
run ends in a configuration error. -/
lemma run_config_error_of_unused {t : firmware_tables}
    {d : firmware_types → String → firmware_arguments}
    {cli : straightener_cli}
    (hft : firmware_type_names.contains cli.firmware_type_string = true)
    (hver : (firmware_version_names t
      (get_firmware_type_from_string cli.firmware_type_string)).contains
      cli.firmware_version_string = true)
    (hsrc : cli.source_set = true)
    (hbad : all_set_overrides_used
      (straightener_default_args d cli.firmware_version_string) cli = false) :
    ∃ e, run_arc_straightener t d cli = run_outcome.config_error e := by
  rw [run_arc_straightener_eq hft hver]
  cases hap : apply_overrides cli.firmware_type_string
      cli.firmware_version_string
      (straightener_default_args d cli.firmware_version_string) cli with
  | error e =>
    refine ⟨e, ?_⟩
    simp [hsrc, hap]
  | ok fa2 =>
    exfalso
    have hall := (apply_overrides_ok_elim hap).2
    rw [hbad] at hall
    exact Bool.noConfusion hall

/-- Supplied `mm_per_arc_segment` (and no `max_arc_segment_mm` alias):
the field holds the supplied value. -/
lemma apply_overrides_result_mm {fa : firmware_arguments}
    {cli : straightener_cli} {v : ℚ}
    (hv : cli.mm_per_arc_segment = some v)
    (hmax : cli.max_arc_segment_mm = none) :
    (apply_overrides_result fa cli).mm_per_arc_segment = v := by
  simp only [apply_overrides_result]
  rw [hmax, apply_override_step_none]
  rw [apply_override_step_mm _ _ (fun fa v => fa.set_min_arc_segment_mm v) (fun _ _ => rfl)]
  rw [apply_override_step_mm _ _ (fun fa v => fa.set_min_circle_segments v) (fun _ _ => rfl)]
  rw [apply_override_step_mm _ _ (fun fa v => { fa with mm_max_arc_error := v }) (fun _ _ => rfl)]
  rw [apply_override_step_mm _ _ (fun fa v => { fa with n_arc_correction := v }) (fun _ _ => rfl)]
  rw [apply_override_step_mm _ _ (fun fa v => { fa with g90_g91_influences_extruder := v == "TRUE" }) (fun _ _ => rfl)]
  rw [apply_override_step_mm _ _ (fun fa v => { fa with arc_segments_per_sec := v }) (fun _ _ => rfl)]
  rw [apply_override_step_mm _ _ (fun fa v => { fa with min_arc_segments := v }) (fun _ _ => rfl)]
  rw [apply_override_step_mm _ _ (fun fa v => { fa with min_mm_per_arc_segment := v }) (fun _ _ => rfl)]
  rw [hv]
  rfl

/-- Supplied `min_mm_per_arc_segment` (and no `min_arc_segment_mm`
alias): the field holds the supplied value. -/
lemma apply_overrides_result_min_mm {fa : firmware_arguments}
    {cli : straightener_cli} {v : ℚ}
    (hv : cli.min_mm_per_arc_segment = some v)
    (halias : cli.min_arc_segment_mm = none) :
    (apply_overrides_result fa cli).min_mm_per_arc_segment = v := by
  simp only [apply_overrides_result]
  rw [apply_override_step_min_mm _ _ (fun fa v => fa.set_max_arc_segment_mm v) (fun _ _ => rfl)]
  rw [halias, apply_override_step_none]
  rw [apply_override_step_min_mm _ _ (fun fa v => fa.set_min_circle_segments v) (fun _ _ => rfl)]
  rw [apply_override_step_min_mm _ _ (fun fa v => { fa with mm_max_arc_error := v }) (fun _ _ => rfl)]
  rw [apply_override_step_min_mm _ _ (fun fa v => { fa with n_arc_correction := v }) (fun _ _ => rfl)]
  rw [apply_override_step_min_mm _ _ (fun fa v => { fa with g90_g91_influences_extruder := v == "TRUE" }) (fun _ _ => rfl)]
  rw [apply_override_step_min_mm _ _ (fun fa v => { fa with arc_segments_per_sec := v }) (fun _ _ => rfl)]
  rw [apply_override_step_min_mm _ _ (fun fa v => { fa with min_arc_segments := v }) (fun _ _ => rfl)]
  rw [hv]
  rfl

/-- Supplied `min_arc_segments` (and no `min_circle_segments` alias):
the field holds the supplied value. -/
lemma apply_overrides_result_min_arc {fa : firmware_arguments}
    {cli : straightener_cli} {v : Int}
    (hv : cli.min_arc_segments = some v)
    (halias : cli.min_circle_segments = none) :
    (apply_overrides_result fa cli).min_arc_segments = v := by
  simp only [apply_overrides_result]
  rw [apply_override_step_min_arc _ _ (fun fa v => fa.set_max_arc_segment_mm v) (fun _ _ => rfl)]
  rw [apply_override_step_min_arc _ _ (fun fa v => fa.set_min_arc_segment_mm v) (fun _ _ => rfl)]
  rw [halias, apply_override_step_none]
  rw [apply_override_step_min_arc _ _ (fun fa v => { fa with mm_max_arc_error := v }) (fun _ _ => rfl)]
  rw [apply_override_step_min_arc _ _ (fun fa v => { fa with n_arc_correction := v }) (fun _ _ => rfl)]
  rw [apply_override_step_min_arc _ _ (fun fa v => { fa with g90_g91_influences_extruder := v == "TRUE" }) (fun _ _ => rfl)]
  rw [apply_override_step_min_arc _ _ (fun fa v => { fa with arc_segments_per_sec := v }) (fun _ _ => rfl)]
  rw [hv]
  rfl

/-- Supplied `arc_segments_per_sec`: the field holds the supplied
value. -/
lemma apply_overrides_result_sec {fa : firmware_arguments}
    {cli : straightener_cli} {v : ℚ}
    (hv : cli.arc_segments_per_sec = some v) :
    (apply_overrides_result fa cli).arc_segments_per_sec = v := by
  simp only [apply_overrides_result]
  rw [apply_override_step_sec _ _ (fun fa v => fa.set_max_arc_segment_mm v) (fun _ _ => rfl)]
  rw [apply_override_step_sec _ _ (fun fa v => fa.set_min_arc_segment_mm v) (fun _ _ => rfl)]
  rw [apply_override_step_sec _ _ (fun fa v => fa.set_min_circle_segments v) (fun _ _ => rfl)]
  rw [apply_override_step_sec _ _ (fun fa v => { fa with mm_max_arc_error := v }) (fun _ _ => rfl)]
  rw [apply_override_step_sec _ _ (fun fa v => { fa with n_arc_correction := v }) (fun _ _ => rfl)]
  rw [apply_override_step_sec _ _ (fun fa v => { fa with g90_g91_influences_extruder := v == "TRUE" }) (fun _ _ => rfl)]
  rw [hv]
  rfl

/-- Supplied `g90_g91_influences_extruder`: the field holds the
comparison of the supplied string with "TRUE". -/
lemma apply_overrides_result_g90 {fa : firmware_arguments}
    {cli : straightener_cli} {v : String}
    (hv : cli.g90_g91_influences_extruder = some v) :
    (apply_overrides_result fa cli).g90_g91_influences_extruder =
      (v == "TRUE") := by
  simp only [apply_overrides_result]
  rw [apply_override_step_g90 _ _ (fun fa v => fa.set_max_arc_segment_mm v) (fun _ _ => rfl)]
  rw [apply_override_step_g90 _ _ (fun fa v => fa.set_min_arc_segment_mm v) (fun _ _ => rfl)]
  rw [apply_override_step_g90 _ _ (fun fa v => fa.set_min_circle_segments v) (fun _ _ => rfl)]
  rw [apply_override_step_g90 _ _ (fun fa v => { fa with mm_max_arc_error := v }) (fun _ _ => rfl)]
  rw [apply_override_step_g90 _ _ (fun fa v => { fa with n_arc_correction := v }) (fun _ _ => rfl)]
  rw [hv]
  rfl

/-- Supplied `n_arc_correction`: the field holds the supplied value. -/
lemma apply_overrides_result_narc {fa : firmware_arguments}
    {cli : straightener_cli} {v : Int}
    (hv : cli.n_arc_correction = some v) :
    (apply_overrides_result fa cli).n_arc_correction = v := by
  simp only [apply_overrides_result]
  rw [apply_override_step_narc _ _ (fun fa v => fa.set_max_arc_segment_mm v) (fun _ _ => rfl)]
  rw [apply_override_step_narc _ _ (fun fa v => fa.set_min_arc_segment_mm v) (fun _ _ => rfl)]
  rw [apply_override_step_narc _ _ (fun fa v => fa.set_min_circle_segments v) (fun _ _ => rfl)]
  rw [apply_override_step_narc _ _ (fun fa v => { fa with mm_max_arc_error := v }) (fun _ _ => rfl)]
  rw [hv]
  rfl

/-- Supplied `mm_max_arc_error`: the field holds the supplied value. -/
lemma apply_overrides_result_maxerr {fa : firmware_arguments}
    {cli : straightener_cli} {v : ℚ}
    (hv : cli.mm_max_arc_error = some v) :
    (apply_overrides_result fa cli).mm_max_arc_error = v := by
  simp only [apply_overrides_result]
  rw [apply_override_step_maxerr _ _ (fun fa v => fa.set_max_arc_segment_mm v) (fun _ _ => rfl)]
  rw [apply_override_step_maxerr _ _ (fun fa v => fa.set_min_arc_segment_mm v) (fun _ _ => rfl)]
  rw [apply_override_step_maxerr _ _ (fun fa v => fa.set_min_circle_segments v) (fun _ _ => rfl)]
  rw [hv]
  rfl

/-- Supplied `min_circle_segments` alias: `min_arc_segments` holds the
supplied value. -/
lemma apply_overrides_result_min_circle {fa : firmware_arguments}
    {cli : straightener_cli} {v : Int}
    (hv : cli.min_circle_segments = some v) :
    (apply_overrides_result fa cli).min_arc_segments = v := by
  simp only [apply_overrides_result]
  rw [apply_override_step_min_arc _ _ (fun fa v => fa.set_max_arc_segment_mm v) (fun _ _ => rfl)]
  rw [apply_override_step_min_arc _ _ (fun fa v => fa.set_min_arc_segment_mm v) (fun _ _ => rfl)]
  rw [hv]
  rfl

/-- Supplied `min_arc_segment_mm` alias: `min_mm_per_arc_segment`
holds the supplied value. -/
lemma apply_overrides_result_min_arc_mm {fa : firmware_arguments}
    {cli : straightener_cli} {v : ℚ}
    (hv : cli.min_arc_segment_mm = some v) :
    (apply_overrides_result fa cli).min_mm_per_arc_segment = v := by
  simp only [apply_overrides_result]
  rw [apply_override_step_min_mm _ _ (fun fa v => fa.set_max_arc_segment_mm v) (fun _ _ => rfl)]
  rw [hv]
  rfl

/-- Supplied `max_arc_segment_mm` alias: `mm_per_arc_segment` holds
the supplied value. -/
lemma apply_overrides_result_max_arc_mm {fa : firmware_arguments}
    {cli : straightener_cli} {v : ℚ}
    (hv : cli.max_arc_segment_mm = some v) :
    (apply_overrides_result fa cli).mm_per_arc_segment = v := by
  simp only [apply_overrides_result]
  rw [hv]
  rfl

/-! ## Claim theorems: inverse-processing entry point -/

/-- Claim C1: for the firmware+version arguments the entry point
resolves, and for every caller-supplied command-line override: if the
override names a parameter outside the applicability set
(`is_argument_used` is false for it), a configuration error is raised
and no file is processed; if it is in the set, the supplied value
replaces the version's default in the run arguments (for the three
aliased fields, provided the later alias argument for the same field
was not also supplied). -/
theorem override_applicability_enforced (t : firmware_tables)
    (d : firmware_types → String → firmware_arguments)
    (cli : straightener_cli)
    (hft : firmware_type_names.contains cli.firmware_type_string = true)
    (hver : (firmware_version_names t
      (get_firmware_type_from_string cli.firmware_type_string)).contains
      cli.firmware_version_string = true)
    (hsrc : cli.source_set = true) :
    (    (∀ v : ℚ, cli.mm_per_arc_segment = some v →
      (straightener_default_args d cli.firmware_version_string).is_argument_used
        ("mm_per_arc_segment") = false →
      ∃ e, run_arc_straightener t d cli = run_outcome.config_error e) ∧
    (∀ v : ℚ, cli.min_mm_per_arc_segment = some v →
      (straightener_default_args d cli.firmware_version_string).is_argument_used
        ("min_mm_per_arc_segment") = false →
      ∃ e, run_arc_straightener t d cli = run_outcome.config_error e) ∧
    (∀ v : Int, cli.min_arc_segments = some v →
      (straightener_default_args d cli.firmware_version_string).is_argument_used
        ("min_arc_segments") = false →
      ∃ e, run_arc_straightener t d cli = run_outcome.config_error e) ∧
    (∀ v : ℚ, cli.arc_segments_per_sec = some v →
      (straightener_default_args d cli.firmware_version_string).is_argument_used
        ("arc_segments_per_sec") = false →
      ∃ e, run_arc_straightener t d cli = run_outcome.config_error e) ∧
    (∀ v : String, cli.g90_g91_influences_extruder = some v →
      (straightener_default_args d cli.firmware_version_string).is_argument_used
        ("g90_g91_influences_extruder") = false →
      ∃ e, run_arc_straightener t d cli = run_outcome.config_error e) ∧
    (∀ v : Int, cli.n_arc_correction = some v →
      (straightener_default_args d cli.firmware_version_string).is_argument_used
        ("n_arc_correction") = false →
      ∃ e, run_arc_straightener t d cli = run_outcome.config_error e) ∧
    (∀ v : ℚ, cli.mm_max_arc_error = some v →
      (straightener_default_args d cli.firmware_version_string).is_argument_used
        ("mm_max_arc_error") = false →
      ∃ e, run_arc_straightener t d cli = run_outcome.config_error e) ∧
    (∀ v : Int, cli.min_circle_segments = some v →
      (straightener_default_args d cli.firmware_version_string).is_argument_used
        ("min_circle_segments") = false →
      ∃ e, run_arc_straightener t d cli = run_outcome.config_error e) ∧
    (∀ v : ℚ, cli.min_arc_segment_mm = some v →
      (straightener_default_args d cli.firmware_version_string).is_argument_used
        ("min_arc_segment_mm") = false →
      ∃ e, run_arc_straightener t d cli = run_outcome.config_error e) ∧
    (∀ v : ℚ, cli.max_arc_segment_mm = some v →
      (straightener_default_args d cli.firmware_version_string).is_argument_used
        ("max_arc_segment_mm") = false →
      ∃ e, run_arc_straightener t d cli = run_outcome.config_error e)) ∧
    (    (∀ (v : ℚ) (fa2 : firmware_arguments), cli.mm_per_arc_segment = some v →
      cli.max_arc_segment_mm = none →
      apply_overrides cli.firmware_type_string cli.firmware_version_string
        (straightener_default_args d cli.firmware_version_string) cli = Except.ok fa2 →
      fa2.mm_per_arc_segment = v) ∧
    (∀ (v : ℚ) (fa2 : firmware_arguments), cli.min_mm_per_arc_segment = some v →
      cli.min_arc_segment_mm = none →
      apply_overrides cli.firmware_type_string cli.firmware_version_string
        (straightener_default_args d cli.firmware_version_string) cli = Except.ok fa2 →
      fa2.min_mm_per_arc_segment = v) ∧
    (∀ (v : Int) (fa2 : firmware_arguments), cli.min_arc_segments = some v →
      cli.min_circle_segments = none →
      apply_overrides cli.firmware_type_string cli.firmware_version_string
        (straightener_default_args d cli.firmware_version_string) cli = Except.ok fa2 →
      fa2.min_arc_segments = v) ∧
    (∀ (v : ℚ) (fa2 : firmware_arguments), cli.arc_segments_per_sec = some v →
      apply_overrides cli.firmware_type_string cli.firmware_version_string
        (straightener_default_args d cli.firmware_version_string) cli = Except.ok fa2 →
      fa2.arc_segments_per_sec = v) ∧
    (∀ (v : String) (fa2 : firmware_arguments), cli.g90_g91_influences_extruder = some v →
      apply_overrides cli.firmware_type_string cli.firmware_version_string
        (straightener_default_args d cli.firmware_version_string) cli = Except.ok fa2 →
      fa2.g90_g91_influences_extruder = (v == "TRUE")) ∧
    (∀ (v : Int) (fa2 : firmware_arguments), cli.n_arc_correction = some v →
      apply_overrides cli.firmware_type_string cli.firmware_version_string
        (straightener_default_args d cli.firmware_version_string) cli = Except.ok fa2 →
      fa2.n_arc_correction = v) ∧
    (∀ (v : ℚ) (fa2 : firmware_arguments), cli.mm_max_arc_error = some v →
      apply_overrides cli.firmware_type_string cli.firmware_version_string
        (straightener_default_args d cli.firmware_version_string) cli = Except.ok fa2 →
      fa2.mm_max_arc_error = v) ∧
    (∀ (v : Int) (fa2 : firmware_arguments), cli.min_circle_segments = some v →
      apply_overrides cli.firmware_type_string cli.firmware_version_string
        (straightener_default_args d cli.firmware_version_string) cli = Except.ok fa2 →
      fa2.min_arc_segments = v) ∧
    (∀ (v : ℚ) (fa2 : firmware_arguments), cli.min_arc_segment_mm = some v →
      apply_overrides cli.firmware_type_string cli.firmware_version_string
        (straightener_default_args d cli.firmware_version_string) cli = Except.ok fa2 →
      fa2.min_mm_per_arc_segment = v) ∧
    (∀ (v : ℚ) (fa2 : firmware_arguments), cli.max_arc_segment_mm = some v →
      apply_overrides cli.firmware_type_string cli.firmware_version_string
        (straightener_default_args d cli.firmware_version_string) cli = Except.ok fa2 →
      fa2.mm_per_arc_segment = v)) := by
  constructor
  · refine ⟨?_, ?_, ?_, ?_, ?_, ?_, ?_, ?_, ?_, ?_⟩
    · intro v hv hu
      exact run_config_error_of_unused hft hver hsrc
        (by simp [all_set_overrides_used, hv, hu])
    · intro v hv hu
      exact run_config_error_of_unused hft hver hsrc
        (by simp [all_set_overrides_used, hv, hu])
    · intro v hv hu
      exact run_config_error_of_unused hft hver hsrc
        (by simp [all_set_overrides_used, hv, hu])
    · intro v hv hu
      exact run_config_error_of_unused hft hver hsrc
        (by simp [all_set_overrides_used, hv, hu])
    · intro v hv hu
      exact run_config_error_of_unused hft hver hsrc
        (by simp [all_set_overrides_used, hv, hu])
    · intro v hv hu
      exact run_config_error_of_unused hft hver hsrc
        (by simp [all_set_overrides_used, hv, hu])
    · intro v hv hu
      exact run_config_error_of_unused hft hver hsrc
        (by simp [all_set_overrides_used, hv, hu])
    · intro v hv hu
      exact run_config_error_of_unused hft hver hsrc
        (by simp [all_set_overrides_used, hv, hu])
    · intro v hv hu
      exact run_config_error_of_unused hft hver hsrc
        (by simp [all_set_overrides_used, hv, hu])
    · intro v hv hu
      exact run_config_error_of_unused hft hver hsrc
        (by simp [all_set_overrides_used, hv, hu])
  · refine ⟨?_, ?_, ?_, ?_, ?_, ?_, ?_, ?_, ?_, ?_⟩
    · intro v fa2 hv halias hap
      rw [(apply_overrides_ok_elim hap).1]
      exact apply_overrides_result_mm hv halias
    · intro v fa2 hv halias hap
      rw [(apply_overrides_ok_elim hap).1]
      exact apply_overrides_result_min_mm hv halias
    · intro v fa2 hv halias hap
      rw [(apply_overrides_ok_elim hap).1]
      exact apply_overrides_result_min_arc hv halias
    · intro v fa2 hv hap
      rw [(apply_overrides_ok_elim hap).1]
      exact apply_overrides_result_sec hv
    · intro v fa2 hv hap
      rw [(apply_overrides_ok_elim hap).1]
      exact apply_overrides_result_g90 hv
    · intro v fa2 hv hap
      rw [(apply_overrides_ok_elim hap).1]
      exact apply_overrides_result_narc hv
    · intro v fa2 hv hap
      rw [(apply_overrides_ok_elim hap).1]
      exact apply_overrides_result_maxerr hv
    · intro v fa2 hv hap
      rw [(apply_overrides_ok_elim hap).1]
      exact apply_overrides_result_min_circle hv
    · intro v fa2 hv hap
      rw [(apply_overrides_ok_elim hap).1]
      exact apply_overrides_result_min_arc_mm hv
    · intro v fa2 hv hap
      rw [(apply_overrides_ok_elim hap).1]
      exact apply_overrides_result_max_arc_mm hv

/-- Witness for C1: with an applicability-set-free defaults table,
supplying `--mm-per-arc-segment` is a configuration error. -/
theorem override_applicability_enforced_witness :
    ∃ e, run_arc_straightener sample_tables sample_defaults_none_used
      { sample_cli with mm_per_arc_segment := some 2 } =
      run_outcome.config_error e :=
  (override_applicability_enforced sample_tables sample_defaults_none_used
    { sample_cli with mm_per_arc_segment := some 2 } rfl rfl rfl).1.1 2 rfl rfl

/-- Claim C2: every configuration error detected by either entry
point terminates the process with a non-zero exit status: the console
entry point returns 1 on its `has_error` checks, and invoking the
inverse-processing entry point without the required source path makes
the command-line parse (which enforces `required=true` on
`source_arg`) terminate with a non-zero status and a message naming
the `source` argument, never reaching a `finished` outcome and
performing no file actions. -/
theorem missing_source_terminates_nonzero :
    (∀ a : console_args,
      a.resolution_mm ≤ 0 ∨ a.path_tolerance_percent < 0 →
      console_main a = console_outcome.config_error 1) ∧
    (∀ (t : firmware_tables)
      (d : firmware_types → String → firmware_arguments)
      (cli : straightener_cli), cli.source_set = false →
      (run_arc_straightener t d cli = run_outcome.parse_exit ∨
        ∃ e, run_arc_straightener t d cli = run_outcome.config_error e) ∧
      run_actions (run_arc_straightener t d cli) = []) := by
  constructor
  · intro a h
    rw [console_main_eq, if_pos h]
  · intro t d cli hsrc
    by_cases hft : firmware_type_names.contains cli.firmware_type_string =
      true
    · by_cases hver : (firmware_version_names t
        (get_firmware_type_from_string cli.firmware_type_string)).contains
        cli.firmware_version_string = true
      · have hr : run_arc_straightener t d cli = run_outcome.parse_exit := by
          rw [run_arc_straightener_eq hft hver]
          simp [hsrc]
        exact ⟨Or.inl hr, by rw [hr]; rfl⟩
      · have hver2 : (firmware_version_names t
            (get_firmware_type_from_string cli.firmware_type_string)).contains
            cli.firmware_version_string = false := by
          simpa using hver
        have hr : run_arc_straightener t d cli = run_outcome.config_error
            (unknown_version_exception cli.firmware_version_string
              cli.firmware_type_string ("firmware-version")) := by
          unfold run_arc_straightener
          rw [version_check_error hver2]
          simp [hft]
          exact (contains_iff_mem _ _).mp hft
        exact ⟨Or.inr ⟨_, hr⟩, by rw [hr]; rfl⟩
    · have hft2 : firmware_type_names.contains cli.firmware_type_string =
          false := by
        simpa using hft
      have hr : run_arc_straightener t d cli = run_outcome.parse_exit := by
        unfold run_arc_straightener
        simp [hft2]
        intro hc
        rw [(contains_iff_mem _ _).mpr hc] at hft2
        exact Bool.noConfusion hft2
      exact ⟨Or.inl hr, by rw [hr]; rfl⟩

/-- Witness for C2: a negative path tolerance returns exit 1 from the
console, and a missing source makes the inverse processor exit at
parse with no file actions. -/
theorem missing_source_terminates_nonzero_witness :
    console_main { sample_console_args with path_tolerance_percent := -1 } =
      console_outcome.config_error 1 ∧
    ((run_arc_straightener sample_tables sample_defaults_all_used
        { sample_cli with source_set := false } = run_outcome.parse_exit ∨
      ∃ e, run_arc_straightener sample_tables sample_defaults_all_used
        { sample_cli with source_set := false } =
        run_outcome.config_error e) ∧
     run_actions (run_arc_straightener sample_tables sample_defaults_all_used
        { sample_cli with source_set := false }) = []) :=
  ⟨(missing_source_terminates_nonzero).1 _
      (Or.inr (by norm_num [sample_console_args])),
   (missing_source_terminates_nonzero).2 sample_tables
      sample_defaults_all_used { sample_cli with source_set := false } rfl⟩

/-- Claim C5: a firmware-type string outside the supported set is
rejected by the command-line parse itself (no default firmware type is
silently substituted, although `get_firmware_type_from_string` alone
would fall back to `MARLIN_2`), and a version string that the resolved
firmware type does not support throws the "Unknown Version Exception";
both are fatal before any file action. -/
theorem unknown_firmware_type_or_version_is_fatal (t : firmware_tables)
    (d : firmware_types → String → firmware_arguments)
    (cli : straightener_cli) :
    (firmware_type_names.contains cli.firmware_type_string = false →
      run_arc_straightener t d cli = run_outcome.parse_exit ∧
      run_actions (run_arc_straightener t d cli) = []) ∧
    (firmware_type_names.contains cli.firmware_type_string = true →
      (firmware_version_names t (get_firmware_type_from_string
        cli.firmware_type_string)).contains cli.firmware_version_string =
        false →
      run_arc_straightener t d cli = run_outcome.config_error
        (unknown_version_exception cli.firmware_version_string
          cli.firmware_type_string ("firmware-version")) ∧
      run_actions (run_arc_straightener t d cli) = []) := by
  constructor
  · intro hbadft
    have hr : run_arc_straightener t d cli = run_outcome.parse_exit := by
      unfold run_arc_straightener
      simp [hbadft]
      intro hc
      rw [(contains_iff_mem _ _).mpr hc] at hbadft
      exact Bool.noConfusion hbadft
    exact ⟨hr, by rw [hr]; rfl⟩
  · intro hft hbad
    have hr : run_arc_straightener t d cli = run_outcome.config_error
        (unknown_version_exception cli.firmware_version_string
          cli.firmware_type_string ("firmware-version")) := by
      unfold run_arc_straightener
      rw [version_check_error hbad]
      simp [hft]
      exact (contains_iff_mem _ _).mp hft
    exact ⟨hr, by rw [hr]; rfl⟩

/-- Witness for C5: the unsupported type "KLIPPER" exits at parse, and
the unknown MARLIN_2 version "1.0.0" raises the version exception. -/
theorem unknown_firmware_type_or_version_is_fatal_witness :
    run_arc_straightener sample_tables sample_defaults_all_used
      { sample_cli with firmware_type_string := "KLIPPER" } =
      run_outcome.parse_exit ∧
    run_arc_straightener sample_tables sample_defaults_all_used
      { sample_cli with firmware_version_string := "1.0.0" } =
      run_outcome.config_error (unknown_version_exception ("1.0.0")
        ("MARLIN_2") ("firmware-version")) :=
  ⟨((unknown_firmware_type_or_version_is_fatal sample_tables
      sample_defaults_all_used
      { sample_cli with firmware_type_string := "KLIPPER" }).1 rfl).1,
   ((unknown_firmware_type_or_version_is_fatal sample_tables
      sample_defaults_all_used
      { sample_cli with firmware_version_string := "1.0.0" }).2 rfl rfl).1⟩

/-- Claim C9: in both entry points an absent (empty) target path makes
the target equal the source, and the run overwrites the source: the
console stores the source path as the target of the run, and the
inverse-processing entry point writes its output to a temporary file
path, then deletes the original source file, then renames the
temporary file to the source path. -/
theorem absent_target_overwrites_source :
    (∀ a : console_args, 0 < a.resolution_mm →
      0 ≤ a.path_tolerance_percent → a.target_path = "" →
      ∃ adjusted, console_main a = console_outcome.run adjusted ∧
        adjusted.target_path = a.source_path) ∧
    (∀ (t : firmware_tables)
      (d : firmware_types → String → firmware_arguments)
      (cli : straightener_cli) (fa2 : firmware_arguments),
      firmware_type_names.contains cli.firmware_type_string = true →
      (firmware_version_names t (get_firmware_type_from_string
        cli.firmware_type_string)).contains cli.firmware_version_string =
        true →
      cli.source_set = true → cli.target_path = "" →
      apply_overrides cli.firmware_type_string cli.firmware_version_string
        (straightener_default_args d cli.firmware_version_string) cli =
        Except.ok fa2 →
      run_arc_straightener t d cli = run_outcome.finished 0
        [file_action.write_output (get_temp_file_path_for_file
          cli.source_path),
         file_action.remove cli.source_path,
         file_action.rename (get_temp_file_path_for_file cli.source_path)
           cli.source_path]) := by
  constructor
  · intro a hres htol htgt
    have hcond : ¬(a.resolution_mm ≤ 0 ∨ a.path_tolerance_percent < 0) := by
      push_neg
      exact ⟨hres, htol⟩
    refine ⟨console_adjust_args { a with target_path := a.source_path },
      ?_, ?_⟩
    · rw [console_main_eq, if_neg hcond, if_pos htgt]
    · rw [console_adjust_args_target_path]
  · intro t d cli fa2 hft hver hsrc htgt hap
    rw [run_arc_straightener_eq hft hver]
    simp [hsrc, htgt, hap]

/-- Witness for C9: a concrete overwrite run writes the temp file,
removes the source and renames the temp file onto it. -/
theorem absent_target_overwrites_source_witness :
    (∃ adjusted,
      console_main { sample_console_args with target_path := "" } =
        console_outcome.run adjusted ∧
      adjusted.target_path = "in.gcode") ∧
    run_arc_straightener sample_tables sample_defaults_all_used sample_cli =
      run_outcome.finished 0
        [file_action.write_output ("in.gcode.tmp"),
         file_action.remove ("in.gcode"),
         file_action.rename ("in.gcode.tmp") ("in.gcode")] := by
  constructor
  · obtain ⟨x, hx, ht⟩ := (absent_target_overwrites_source).1
      { sample_console_args with target_path := "" }
      (by norm_num [sample_console_args]) (by norm_num [sample_console_args])
      rfl
    exact ⟨x, hx, ht⟩
  · exact (absent_target_overwrites_source).2 sample_tables
      sample_defaults_all_used sample_cli _ rfl rfl rfl rfl rfl

/-- Claim C10: `is_firmware_version_valid_for_type` is declared `bool`
but no execution path returns a value: whenever it does not throw it
reaches the end of its body producing no boolean, so the total
embedding yields `Except.ok none` on every success path — no defined
boolean result exists. -/
theorem version_check_returns_no_boolean (t : firmware_tables)
    (firmware_type_string firmware_version firmware_version_arg_name :
      String) :
    (∀ r, is_firmware_version_valid_for_type t firmware_type_string
        firmware_version firmware_version_arg_name = Except.ok r →
      r = none) ∧
    ((firmware_version_names t (get_firmware_type_from_string
        firmware_type_string)).contains firmware_version = true →
      is_firmware_version_valid_for_type t firmware_type_string
        firmware_version firmware_version_arg_name = Except.ok none) := by
  constructor
  · intro r hr
    by_cases hv : (firmware_version_names t (get_firmware_type_from_string
        firmware_type_string)).contains firmware_version = true
    · rw [version_check_ok hv] at hr
      injection hr with hr
      exact hr.symm
    · have hv2 : (firmware_version_names t (get_firmware_type_from_string
          firmware_type_string)).contains firmware_version = false := by
        simpa using hv
      rw [version_check_error hv2] at hr
      exact Except.noConfusion hr
  · exact version_check_ok

/-- Witness for C10: a valid PRUSA version check succeeds with no
boolean result. -/
theorem version_check_returns_no_boolean_witness :
    is_firmware_version_valid_for_type sample_tables ("PRUSA")
      ("LATEST_RELEASE") ("firmware-version") = Except.ok none :=
  (version_check_returns_no_boolean sample_tables ("PRUSA")
    ("LATEST_RELEASE") ("firmware-version")).2 rfl
